import Mathlib

/-!
Verification of the WHI-chatbot RAG pipeline (src/rag/system.py and
src/data/processor.py) against its natural-language specification.

The Python code is shallowly embedded: pure helpers become Lean functions on
String / List Char / ℚ, the LangGraph workflow becomes explicit state passing
over a record of optional fields (mirroring LangGraph channel semantics: a key
never written by any node is absent from the final state), and the external
language-model / vector-search calls become explicit outcome parameters
(success payload, unparsable output, or raised exception), since the pipeline
only observes those outcomes.
-/

namespace WHI

/-- A question/answer pair, as stored in `conversation_history` entries and in
`related_previous_qa` (src/rag/system.py builds these dicts with exactly the
keys question and answer). -/
structure QA where
  question : String
  answer : String
deriving Repr, DecidableEq

/-- A source record as built by WHIRAGSystem._extract_sources
(src/rag/system.py lines 448-459). -/
structure Source where
  type : String
  dataset_name : String
  variable_name : String
  study : String
deriving Repr, DecidableEq

/-- A LangChain Document: page content plus a string-keyed metadata dict,
embedded as an association list (src/data/processor.py builds these). -/
structure Document where
  page_content : String
  metadata : List (String × String)
deriving Repr, DecidableEq

/-- Python dict.get(key, default) on the association-list embedding of the
metadata dict. -/
def dictGet (m : List (String × String)) (key dflt : String) : String :=
  match m.find? (fun kv => kv.1 == key) with
  | some kv => kv.2
  | none => dflt

/-- WHIRAGSystem._extract_sources (src/rag/system.py lines 448-459): one
source record per document, in order, each field read from the metadata dict
with the defaults used by the code. -/
def extractSources (documents : List Document) : List Source :=
  documents.map fun doc =>
    { type := dictGet doc.metadata "type" "unknown"
      dataset_name := dictGet doc.metadata "dataset_name" "N/A"
      variable_name := dictGet doc.metadata "variable_name" "N/A"
      study := dictGet doc.metadata "study" "N/A" }

/-- Round a rational to the nearest integer, ties to even — the semantics of
Python 3 round() (banker's rounding). On the values reachable from
_calculate_confidence the fractional part of 100x is never exactly 1/2,
so the tie branch is never exercised there. -/
def rhe (q : ℚ) : ℤ :=
  let f : ℤ := ⌊q⌋
  if q - f < 1/2 then f
  else if (1 : ℚ)/2 < q - f then f + 1
  else if f % 2 = 0 then f else f + 1

/-- Python round(x, 2): round to two decimal places, ties to even. -/
def round2 (q : ℚ) : ℚ := (rhe (q * 100) : ℚ) / 100

/-- WHIRAGSystem._calculate_confidence (src/rag/system.py lines 485-496):
0.0 if the answer string or the sources list is empty, otherwise
round(0.6 * min(len(answer)/500, 1.0) + 0.4 * min(len(sources)/5, 1.0), 2).
Arithmetic is embedded in ℚ. -/
def calculateConfidence (answer : String) (sources : List Source) : ℚ :=
  if answer = "" ∨ sources = [] then 0
  else
    let answerLengthScore : ℚ := min ((answer.length : ℚ) / 500) 1
    let sourceCountScore : ℚ := min ((sources.length : ℚ) / 5) 1
    round2 (answerLengthScore * 0.6 + sourceCountScore * 0.4)

/-- Modelled from the spec's formula (§4.1 stage 4 and §8 scenario C), for the
refinement comparison with `calculateConfidence`: zero if either input is
empty, else the weighted, 2-decimal-rounded combination of normalized answer
length and source count. -/
def confidenceSpec (answer : String) (sources : List Source) : ℚ :=
  if answer = "" ∨ sources = [] then 0
  else round2 (0.6 * min ((answer.length : ℚ) / 500) 1 +
               0.4 * min ((sources.length : ℚ) / 5) 1)

/-- One conversation-memory entry, as built by WHIRAGSystem._save_to_memory
(src/rag/system.py lines 77-95). The timestamp (datetime.now().isoformat())
is an input of the embedding. -/
structure MemEntry where
  question : String
  answer : String
  detailed_answer : String
  timestamp : String
  confidence : ℚ
  question_type : String
deriving Repr, DecidableEq

/-- The append-then-evict core of _save_to_memory: append the entry, then if
len(memory) > max_history_length pop the oldest (index 0) entry. -/
def memAppend (maxLen : Nat) (mem : List MemEntry) (e : MemEntry) : List MemEntry :=
  let m := mem ++ [e]
  if maxLen < m.length then m.drop 1 else m

/-- WHIRAGSystem.__init__ sets self.max_history_length = 10
(src/rag/system.py line 21). -/
def maxHistoryLength : Nat := 10

/-- The last n elements of a list (the suffix that survives FIFO eviction). -/
def lastN (n : Nat) (l : List MemEntry) : List MemEntry := l.drop (l.length - n)

/-! ### Regex post-processing: WHIRAGSystem._ensure_markdown_format

The four re.sub calls (src/rag/system.py lines 505-521) are embedded as
executable scanners over List Char, reproducing Python re semantics for these
specific patterns: MULTILINE anchors, greedy quantifiers with backtracking
where reachable, and scanning that resumes at each match end. -/

/-- Python regex \s over the ASCII whitespace characters. -/
def isPyWs (c : Char) : Bool :=
  c == ' ' || c == '\t' || c == '\n' || c == '\r' || c == '\x0b' || c == '\x0c'

/-- Python regex \w (word character), on the ASCII range the inputs use. -/
def isWordChar (c : Char) : Bool := c.isAlpha || c.isDigit || c == '_'

/-- Python str.strip(): remove leading and trailing whitespace. -/
def pyStrip (cs : List Char) : List Char :=
  ((cs.dropWhile isPyWs).reverse.dropWhile isPyWs).reverse

/-- Attempt the heading pattern at a line-start position with m leading hash
marks, where m starts at min(count, 6) and backtracks downward as the greedy
counted quantifier does: after the hashes, \s* consumes greedily but
backtracks so that the dot-plus group has at least one non-newline character;
the captured group runs to the next newline or the end. Returns the
(replacement, rest) pair on success. -/
def hashTry (cs : List Char) : Nat → Option (List Char × List Char)
  | 0 => none
  | k + 1 =>
    let after := cs.drop (k + 1)
    let ws := after.takeWhile isPyWs
    let restAfterWs := after.dropWhile isPyWs
    let jOpt : Option Nat :=
      if restAfterWs.isEmpty then
        (List.range ws.length).reverse.find? (fun j => ws.getD j '\n' != '\n')
      else some ws.length
    match jOpt with
    | some j =>
      let tail := after.drop j
      let group := tail.takeWhile (fun c => c != '\n')
      let rest := tail.dropWhile (fun c => c != '\n')
      some ('#' :: '#' :: ' ' :: pyStrip group, rest)
    | none => hashTry cs k

/-- One match attempt of the heading pattern at a line-start position. -/
def sub1Match (cs : List Char) : Option (List Char × List Char) :=
  let n := (cs.takeWhile (fun c => c == '#')).length
  if n = 0 then none else hashTry cs (min n 6)

/-- Scanner for re.sub of the heading pattern with MULTILINE: attempts a
match at every line start, emits the replacement and resumes after the match.
Fuel is at least the list length plus one, and every step consumes at least
one character, so the fuel-exhausted branch is unreachable from the wrapper. -/
def sub1Aux : Nat → Bool → List Char → List Char
  | 0, _, cs => cs
  | _ + 1, _, [] => []
  | fuel + 1, lineStart, c :: cs =>
    if lineStart then
      match sub1Match (c :: cs) with
      | some (repl, rest) => repl ++ sub1Aux fuel false rest
      | none => c :: sub1Aux fuel (c == '\n') cs
    else c :: sub1Aux fuel (c == '\n') cs

/-- re.sub of the heading-coercion pattern to "## " plus the stripped group,
MULTILINE (first substitution in _ensure_markdown_format). -/
def headingSub (cs : List Char) : List Char := sub1Aux (cs.length + 1) true cs

/-- Scanner for re.sub of the bullet pattern (a line-initial bullet character
followed by greedy \s*, which may also consume newlines) replaced by "- ",
MULTILINE (second substitution in _ensure_markdown_format). -/
def sub2Aux : Nat → Bool → List Char → List Char
  | 0, _, cs => cs
  | _ + 1, _, [] => []
  | fuel + 1, lineStart, c :: cs =>
    if lineStart && (c == '•' || c == '·' || c == '*') then
      let ws := cs.takeWhile isPyWs
      let rest := cs.dropWhile isPyWs
      let nextLineStart := ws.getLast? == some '\n'
      '-' :: ' ' :: sub2Aux fuel nextLineStart rest
    else c :: sub2Aux fuel (c == '\n') cs

/-- The bullet-marker normalization substitution. -/
def bulletSub (cs : List Char) : List Char := sub2Aux (cs.length + 1) true cs

/-- Emit a pending run of k newlines, collapsing runs of three or more to
exactly two. -/
def collapseEmit (k : Nat) : List Char :=
  if 3 ≤ k then ['\n', '\n'] else List.replicate k '\n'

/-- Scanner for re.sub collapsing newline runs of length at least three to a
pair of newlines (third substitution in _ensure_markdown_format). -/
def collapseAux : Nat → List Char → List Char
  | k, [] => collapseEmit k
  | k, c :: cs =>
    if c == '\n' then collapseAux (k + 1) cs
    else collapseEmit k ++ c :: collapseAux 0 cs

/-- The blank-line collapsing substitution. -/
def newlineCollapse (cs : List Char) : List Char := collapseAux 0 cs

/-- The unit alternation of the bolding pattern, in the source's order. -/
def boldUnits : List (List Char) :=
  ["g/dL".data, "mg/dL".data, "mmHg".data, "%".data, "years".data,
   "cases".data, "people".data, "items".data]

/-- First unit of the alternation (in order) that is a literal prefix of cs;
no unit is a prefix of another, so at most one can match at a position. -/
def unitMatch (units : List (List Char)) (cs : List Char) :
    Option (List Char × List Char) :=
  match units with
  | [] => none
  | u :: us =>
    if u.isPrefixOf cs then some (u, cs.drop u.length) else unitMatch us cs

/-- Match \d+(?:\.\d+)?\s*(unit alternation) at the head of cs, returning the
matched text and the remainder. The quantifiers are effectively deterministic
here: no unit begins with a digit, a dot, or whitespace, so backtracking into
\d+, the optional fraction, or \s* can never turn a failure into a success. -/
def numUnitMatch (units : List (List Char)) (cs : List Char) :
    Option (List Char × List Char) :=
  let d1 := cs.takeWhile Char.isDigit
  if d1.isEmpty then none
  else
    let after1 := cs.drop d1.length
    let fracSplit : List Char × List Char :=
      match after1 with
      | '.' :: t =>
        let d2 := t.takeWhile Char.isDigit
        if d2.isEmpty then ([], after1) else ('.' :: d2, t.drop d2.length)
      | _ => ([], after1)
    let frac := fracSplit.1
    let after2 := fracSplit.2
    let ws := after2.takeWhile isPyWs
    let after3 := after2.dropWhile isPyWs
    match unitMatch units after3 with
    | some (u, rest) => some (d1 ++ frac ++ ws ++ u, rest)
    | none => none

/-- Scanner for the numeric-bolding re.sub (fourth substitution in
_ensure_markdown_format): at each position, the lookbehind rejects a
preceding asterisk, \b requires a non-word (or absent) predecessor since the
pattern starts with a digit, and the lookahead rejects a following asterisk.
On a successful match the text is wrapped in double asterisks and scanning
resumes at the match end. -/
def sub4Aux : Nat → Option Char → List Char → List Char
  | 0, _, cs => cs
  | _ + 1, _, [] => []
  | fuel + 1, prev, c :: cs =>
    let prevBlocks : Bool :=
      match prev with
      | some p => p == '*' || isWordChar p
      | none => false
    let attempt :=
      if prevBlocks then none else numUnitMatch boldUnits (c :: cs)
    match attempt with
    | some (m, rest) =>
      if rest.head? == some '*' then c :: sub4Aux fuel (some c) cs
      else '*' :: '*' :: (m ++ '*' :: '*' :: sub4Aux fuel m.getLast? rest)
    | none => c :: sub4Aux fuel (some c) cs

/-- The numeric-value bolding substitution. -/
def boldSub (cs : List Char) : List Char := sub4Aux (cs.length + 1) none cs

/-- WHIRAGSystem._ensure_markdown_format (src/rag/system.py lines 505-521):
heading coercion, bullet normalization, blank-line collapsing, numeric-unit
bolding, then str.strip(). -/
def ensureMarkdownFormat (answer : String) : String :=
  String.mk (pyStrip (boldSub (newlineCollapse (bulletSub (headingSub answer.data)))))

/-! ### Search-query generation: WHIRAGSystem._generate_search_query -/

/-- The medical-term alternation of _generate_search_query, in the source's
order. No alternative is a prefix of another. -/
def medicalTermList : List (List Char) :=
  ["hemoglobin".data, "hgb".data, "blood".data, "pressure".data,
   "cholesterol".data, "bmi".data, "weight".data, "height".data,
   "mesa".data, "whi".data]

/-- One alternation attempt at a position for the keyword pattern
\b(?:...)\b: first alternative that is a literal prefix and is followed by a
word boundary (every alternative ends in a letter, so the boundary holds iff
the next character is absent or not a word character). -/
def kwMatch (alts : List (List Char)) (cs : List Char) :
    Option (List Char × List Char) :=
  match alts with
  | [] => none
  | a :: rest_alts =>
    if a.isPrefixOf cs then
      let rest := cs.drop a.length
      let nextIsWord := match rest.head? with
        | some c => isWordChar c
        | none => false
      if nextIsWord then kwMatch rest_alts cs else some (a, rest)
    else kwMatch rest_alts cs

/-- re.findall of the medical-term pattern: scan left to right; the leading
\b holds iff the previous character is absent or not a word character (every
alternative begins with a letter). -/
def findallKeywordsAux : Nat → Option Char → List Char → List (List Char)
  | 0, _, _ => []
  | _ + 1, _, [] => []
  | fuel + 1, prev, c :: cs =>
    let boundaryOk := match prev with
      | some p => !(isWordChar p)
      | none => true
    if boundaryOk then
      match kwMatch medicalTermList (c :: cs) with
      | some (m, rest) => m :: findallKeywordsAux fuel m.getLast? rest
      | none => findallKeywordsAux fuel (some c) cs
    else findallKeywordsAux fuel (some c) cs

/-- The unit alternation of the number-with-unit pattern in
_generate_search_query, in the source's order. -/
def queryUnits : List (List Char) :=
  ["g/dL".data, "mg/dL".data, "mmHg".data, "%".data, "years".data]

/-- re.findall of \b\d+(?:\.\d+)?\s*(?:g/dL|mg/dL|mmHg|%|years)\b: like the
bolding pattern but with a trailing word boundary instead of the lookarounds.
The trailing \b compares word-ness of the last matched character and the
following one (in particular a match ending in % needs a word character right
after it). -/
def findallNumericAux : Nat → Option Char → List Char → List (List Char)
  | 0, _, _ => []
  | _ + 1, _, [] => []
  | fuel + 1, prev, c :: cs =>
    let boundaryOk := match prev with
      | some p => !(isWordChar p)
      | none => true
    let attempt := if boundaryOk then numUnitMatch queryUnits (c :: cs) else none
    match attempt with
    | some (m, rest) =>
      let lastIsWord := match m.getLast? with
        | some x => isWordChar x
        | none => false
      let nextIsWord := match rest.head? with
        | some x => isWordChar x
        | none => false
      if lastIsWord != nextIsWord then m :: findallNumericAux fuel m.getLast? rest
      else findallNumericAux fuel (some c) cs
    | none => findallNumericAux fuel (some c) cs

/-- WHIRAGSystem._generate_search_query (src/rag/system.py lines 295-312):
lowercase the question, findall the medical-term pattern and the
number-with-unit pattern, join all matches with spaces; fall back to the
original question verbatim if no terms were extracted. The question_type
argument is accepted but unused, as in the source. -/
def generateSearchQuery (question : String) (_questionType : String) : String :=
  let lower := question.data.map Char.toLower
  let medicalTerms := findallKeywordsAux (lower.length + 1) none lower
  let numericTerms := findallNumericAux (lower.length + 1) none lower
  let searchTerms := medicalTerms ++ numericTerms
  if searchTerms = [] then question
  else String.intercalate " " (searchTerms.map String.mk)

/-! ### The LangGraph pipeline

WHIRAGState (src/graph/state.py) is a TypedDict whose keys are written
incrementally by the four workflow nodes; LangGraph returns only the keys
that were ever written, so every field is embedded as an Option, with none
meaning the key is absent from the state. Each node merges its returned
partial dict into the state, which the embedding renders as a record update
that leaves the unmentioned fields untouched. -/

/-- The pipeline state (src/graph/state.py, WHIRAGState). -/
structure PState where
  question : Option String := none
  conversation_history : Option (List QA) := none
  output_language : Option String := none
  context_summary : Option String := none
  related_previous_qa : Option (List QA) := none
  is_context_related : Option Bool := none
  question_type : Option String := none
  search_query : Option String := none
  retrieved_documents : Option (List Document) := none
  context : Option String := none
  answer : Option String := none
  summary_answer : Option String := none
  confidence_score : Option ℚ := none
  sources : Option (List Source) := none
  processing_steps : Option (List String) := none
  error : Option String := none
deriving Repr, DecidableEq

/-- The context_analysis object of the first model call's parsed JSON
payload, at the granularity the code reads it (dict.get with defaults; the
reasoning field is never read). -/
structure CtxPayload where
  is_related : Option Bool := none
  context_summary : Option String := none
  related_qa_indices : Option (List Int) := none
deriving Repr, DecidableEq

/-- The question_classification object of the first model call's parsed JSON
payload (only question_type is read). -/
structure ClassPayload where
  question_type : Option String := none
deriving Repr, DecidableEq

/-- The first model call's parsed JSON payload: either top-level object may
be missing (dict.get with default empty dict). -/
structure AnalysisPayload where
  context_analysis : Option CtxPayload := none
  question_classification : Option ClassPayload := none
deriving Repr, DecidableEq

/-- Outcome of the single model call in _analyze_context_and_classify:
the call raises, or its output fails to parse as JSON, or it parses to a
payload. -/
inductive LLMCall1 where
  | llmFailure (msg : String)
  | jsonFailure
  | ok (p : AnalysisPayload)
deriving Repr, DecidableEq

/-- The medical keyword list of _enhanced_context_analysis
(src/rag/system.py lines 236-237). -/
def medicalKeywords : List String :=
  ["hemoglobin", "hgb", "blood", "pressure", "cholesterol", "bmi", "weight", "height"]

/-- The dataset keyword list of _enhanced_context_analysis. -/
def datasetKeywords : List String :=
  ["mesa", "whi", "form", "dataset", "study", "variable"]

/-- Python substring containment (the in operator on str). -/
def strContains (hay needle : List Char) : Bool :=
  hay.tails.any (fun t => needle.isPrefixOf t)

/-- Python str.split() with no argument: maximal runs of non-whitespace. -/
def pyWords (cs : List Char) : List (List Char) :=
  (List.splitOnP isPyWs cs).filter (fun w => !w.isEmpty)

/-- WHIRAGSystem._enhanced_context_analysis (src/rag/system.py lines
231-261): mark a history entry related when the distinct-word overlap with
the question exceeds 1 or a medical / dataset keyword occurs as a substring
of both lowercased questions. Returns the dict the code builds (the unread
reasoning field is dropped). -/
def enhancedContextAnalysis (question : String) (history : List QA) : CtxPayload :=
  let questionLower := question.data.map Char.toLower
  let qWords := pyWords questionLower
  let relatedIndices : List Nat :=
    (history.enum.filter (fun p =>
      let histQuestion := p.2.question.data.map Char.toLower
      let hWords := pyWords histQuestion
      let overlap := (qWords.dedup.filter (fun w => w ∈ hWords)).length
      let medicalOverlap := medicalKeywords.any (fun t =>
        strContains questionLower t.data && strContains histQuestion t.data)
      let datasetOverlap := datasetKeywords.any (fun t =>
        strContains questionLower t.data && strContains histQuestion t.data)
      decide (1 < overlap) || medicalOverlap || datasetOverlap)).map Prod.fst
  { is_related := some (!relatedIndices.isEmpty)
    context_summary := some (if relatedIndices.isEmpty
      then "No related historical conversations"
      else "Found " ++ toString relatedIndices.length ++ " related historical conversations")
    related_qa_indices := some (relatedIndices.map Int.ofNat) }

/-- WHIRAGSystem._analyze_context_and_classify (src/rag/system.py lines
116-229). The model call is issued unconditionally (also on empty history,
where only the prompt text differs); the returned Nat counts the
generate_response calls the stage issued, which is always one. On a call or
parse failure the keyword fallback supplies the context analysis and the
classification defaults to general; an out-of-range classification value
also resolves to general. The stage's own outer exception handler is
unreachable for well-formed states (the remaining statements are dict/list
operations that cannot raise), so it is not modelled. -/
def analyzeContextAndClassify (st : PState) (llm : LLMCall1) : PState × Nat :=
  let question := st.question.getD ""
  let history := st.conversation_history.getD []
  let steps := (st.processing_steps.getD []) ++
    ["Starting combined context analysis and question classification"]
  let parts : CtxPayload × ClassPayload :=
    match llm with
    | .ok p => (p.context_analysis.getD {}, p.question_classification.getD {})
    | .jsonFailure =>
      (enhancedContextAnalysis question history, { question_type := some "general" })
    | .llmFailure _ =>
      (enhancedContextAnalysis question history, { question_type := some "general" })
  let contextAnalysis := parts.1
  let questionClassification := parts.2
  let relatedQA : List QA :=
    if contextAnalysis.is_related.getD false then
      (contextAnalysis.related_qa_indices.getD []).filterMap (fun idx =>
        if 0 ≤ idx ∧ idx < (history.length : ℤ) then history.get? idx.toNat else none)
    else []
  let qt0 := questionClassification.question_type.getD "general"
  let questionType :=
    if qt0 = "variable" ∨ qt0 = "dataset" ∨ qt0 = "general" then qt0 else "general"
  ({ st with
      context_summary := some (contextAnalysis.context_summary.getD "")
      related_previous_qa := some relatedQA
      is_context_related := some (contextAnalysis.is_related.getD false)
      question_type := some questionType
      processing_steps := some (steps ++
        ["Combined context analysis and question classification completed"]) }, 1)

/-- Outcome of the similarity_search call in _retrieve_documents. -/
inductive SearchOutcome where
  | ok (docs : List Document)
  | searchFailure (msg : String)
deriving Repr, DecidableEq

/-- WHIRAGSystem._retrieve_documents (src/rag/system.py lines 263-293):
build the search query (pure, cannot raise), then run the similarity search;
on failure return an empty document list and an error note, without the
search_query key. -/
def retrieveDocuments (st : PState) (search : SearchOutcome) : PState :=
  let question := st.question.getD ""
  let questionType := st.question_type.getD "general"
  let searchQuery := generateSearchQuery question questionType
  let steps := (st.processing_steps.getD []) ++
    ["Starting document retrieval", "Generated search query: " ++ searchQuery]
  match search with
  | .ok docs =>
    { st with
        search_query := some searchQuery
        retrieved_documents := some docs
        processing_steps := some (steps ++
          ["Retrieved " ++ toString docs.length ++ " relevant documents"]) }
  | .searchFailure msg =>
    { st with
        retrieved_documents := some []
        error := some ("Document retrieval failed: " ++ msg)
        processing_steps := some (steps ++ ["Document retrieval failed: " ++ msg]) }

/-- Outcome of the model call in _generate_and_summarize_answer: the call
raises; or its (fence-stripped) output parses, yielding the detailed_answer
and summary_answer fields with empty-string defaults; or parsing fails and
the raw fence-stripped text feeds the manual fallback split. -/
inductive GenOutcome where
  | genFailure (msg : String)
  | ok (detailed summary : String)
  | jsonFallback (raw : String)
deriving Repr, DecidableEq

/-- WHIRAGSystem._build_context (src/rag/system.py lines 437-446). -/
def buildContext (documents : List Document) : String :=
  if documents = [] then "No relevant information found."
  else String.intercalate "\n" (documents.enum.map (fun p =>
    "Information " ++ toString (p.1 + 1) ++ ":\n" ++ p.2.page_content ++ "\n"))

/-- The manual fallback split of _generate_and_summarize_answer when JSON
parsing fails: join the first three lines if there are at least three,
otherwise the first 200 characters. -/
def firstLinesFallback (raw : String) : String :=
  let ls := raw.splitOn "\n"
  if 3 ≤ ls.length then String.intercalate " " (ls.take 3)
  else String.mk (raw.data.take 200)

/-- WHIRAGSystem._generate_and_summarize_answer (src/rag/system.py lines
314-435). On the normal and fallback-parse branches the returned dict
carries context, answer (markdown-normalized), summary_answer, sources and
processing_steps; the exception branch returns only error, canned answer and
summary, and processing_steps - in particular it does not set sources or
context. -/
def generateAndSummarizeAnswer (st : PState) (gen : GenOutcome) : PState :=
  let documents := st.retrieved_documents.getD []
  let steps := (st.processing_steps.getD []) ++
    ["Starting combined answer generation and summarization"]
  let contextStr := buildContext documents
  match gen with
  | .genFailure msg =>
    { st with
        error := some ("Combined answer generation failed: " ++ msg)
        answer := some "Sorry, an error occurred while generating the answer."
        summary_answer := some "Unable to process your question at this time."
        processing_steps := some (steps ++
          ["Combined answer generation failed: " ++ msg]) }
  | .ok detailed summary =>
    { st with
        context := some contextStr
        answer := some (ensureMarkdownFormat detailed)
        summary_answer := some summary
        sources := some (extractSources documents)
        processing_steps := some (steps ++
          ["Combined answer generation and summarization completed"]) }
  | .jsonFallback raw =>
    { st with
        context := some contextStr
        answer := some (ensureMarkdownFormat raw)
        summary_answer := some (firstLinesFallback raw)
        sources := some (extractSources documents)
        processing_steps := some (steps ++
          ["Combined answer generation and summarization completed"]) }

/-- Python f-string formatting with .2f of a confidence value; the values
produced by _calculate_confidence are exact multiples of 1/100 in [0, 1]. -/
def formatConfidence (c : ℚ) : String :=
  let n := rhe (c * 100)
  toString (n / 100) ++ "." ++ (if n % 100 < 10 then "0" else "") ++ toString (n % 100)

/-- WHIRAGSystem._validate_answer (src/rag/system.py lines 461-483): read
answer and sources with empty defaults and attach the confidence score. The
body is pure, so the except branch is unreachable and not modelled. -/
def validateAnswer (st : PState) : PState :=
  let answer := st.answer.getD ""
  let sources := st.sources.getD []
  let steps := (st.processing_steps.getD []) ++ ["Starting answer validation"]
  let confidenceScore := calculateConfidence answer sources
  { st with
      confidence_score := some confidenceScore
      processing_steps := some (steps ++
        ["Answer validation completed, confidence: " ++ formatConfidence confidenceScore]) }

/-- The external outcomes of one workflow invocation: the analysis model
call, the similarity search, and the generation model call. -/
structure RunOutcome where
  analysisCall : LLMCall1
  searchCall : SearchOutcome
  generationCall : GenOutcome
deriving Repr, DecidableEq

/-- Behaviour of one process_question call: either workflow.invoke itself
raises (the catastrophic top-level path), or the four stages run with the
given external outcomes. -/
inductive PQBehavior where
  | invokeFailure (msg : String)
  | run (o : RunOutcome)
deriving Repr, DecidableEq

/-- The initial state built by process_question (conversation_history is
already None-coalesced to a list by the caller expression). -/
def initialState (question : String) (history : List QA) (outputLanguage : String) : PState :=
  { question := some question
    conversation_history := some history
    output_language := some outputLanguage
    processing_steps := some [] }

/-- self.workflow.invoke: the four nodes in their fixed linear order
(src/rag/system.py lines 97-114). -/
def invokeWorkflow (question : String) (history : List QA) (outputLanguage : String)
    (o : RunOutcome) : PState :=
  validateAnswer
    (generateAndSummarizeAnswer
      (retrieveDocuments
        (analyzeContextAndClassify (initialState question history outputLanguage)
          o.analysisCall).1
        o.searchCall)
      o.generationCall)

/-- The entry built by _save_to_memory from the workflow result (timestamp =
datetime.now().isoformat() is an input of the embedding; result.get of a
missing confidence_score defaults to 0). -/
def mkMemEntry (question timestamp : String) (result : PState) : MemEntry :=
  { question := question
    answer := result.summary_answer.getD ""
    detailed_answer := result.answer.getD ""
    timestamp := timestamp
    confidence := result.confidence_score.getD 0
    question_type := result.question_type.getD "general" }

/-- WHIRAGSystem._save_to_memory (src/rag/system.py lines 77-95): append the
derived entry, then evict the oldest entry if the bound is exceeded. Its
internal try/except cannot fire (the body is pure dict/list work). -/
def saveToMemory (maxLen : Nat) (question timestamp : String) (result : PState)
    (mem : List MemEntry) : List MemEntry :=
  memAppend maxLen mem (mkMemEntry question timestamp result)

/-- The canned apologetic bundle returned when workflow.invoke raises
(src/rag/system.py lines 60-75); note it carries exactly the six keys the
code puts in the dict. -/
def cannedBundle (msg : String) : PState :=
  { error := some ("Question processing failed: " ++ msg)
    answer := some "Sorry, an error occurred while processing your question."
    summary_answer := some "The system is temporarily unable to process your question. Please try again later."
    confidence_score := some 0
    sources := some []
    processing_steps := some ["Error: " ++ msg] }

/-- WHIRAGSystem.process_question (src/rag/system.py lines 43-75): run the
workflow and save to memory on the normal path; on a workflow exception
return the canned bundle - the except branch performs no memory save.
Returns the result bundle together with the new conversation memory. -/
def processQuestion (question : String) (history : List QA) (outputLanguage : String)
    (b : PQBehavior) (timestamp : String) (maxLen : Nat) (mem : List MemEntry) :
    PState × List MemEntry :=
  match b with
  | .invokeFailure msg => (cannedBundle msg, mem)
  | .run o =>
    let result := invokeWorkflow question history outputLanguage o
    (result, saveToMemory maxLen question timestamp result mem)

/-! ### Document construction: WHIDataProcessor.create_documents
(src/data/processor.py lines 21-63) -/

/-- One row of the variable-level table, restricted to the columns
create_documents reads; cell values are embedded as strings. -/
structure VariableRow where
  variable_accession : String
  variable_name : String
  variable_description : String
  var_type : String
  dataset_name : String
  dataset_accession : String
  study : String
  database : String
deriving Repr, DecidableEq

/-- One row of the dataset-description table; the URL column may be absent
(row.get with default). -/
structure DatasetRow where
  dataset_accession : String
  dataset_name : String
  dataset_description : String
  study : String
  database : String
  url : Option String
deriving Repr, DecidableEq

/-- The Document built from a variable-level row: the fixed f-string
rendering plus the six metadata entries, tagged type = variable. -/
def variableDocument (r : VariableRow) : Document :=
  { page_content :=
      "Variable Name: " ++ r.variable_name ++
      "\nVariable Description: " ++ r.variable_description ++
      "\nVariable Type: " ++ r.var_type ++
      "\nDataset: " ++ r.dataset_name ++
      "\nStudy: " ++ r.study ++
      "\nDatabase: " ++ r.database
    metadata :=
      [("variable_accession", r.variable_accession),
       ("variable_name", r.variable_name),
       ("dataset_accession", r.dataset_accession),
       ("dataset_name", r.dataset_name),
       ("study", r.study),
       ("type", "variable")] }

/-- The Document built from a dataset-level row: its metadata carries no
variable_name or variable_accession key, and is tagged type = dataset. -/
def datasetDocument (r : DatasetRow) : Document :=
  { page_content :=
      "Dataset Name: " ++ r.dataset_name ++
      "\nDataset Description: " ++ r.dataset_description ++
      "\nStudy: " ++ r.study ++
      "\nDatabase: " ++ r.database ++
      "\nURL: " ++ r.url.getD "N/A"
    metadata :=
      [("dataset_accession", r.dataset_accession),
       ("dataset_name", r.dataset_name),
       ("study", r.study),
       ("database", r.database),
       ("type", "dataset")] }

/-- WHIDataProcessor.create_documents: all variable documents (in row
order), then all dataset documents. -/
def createDocuments (mesaData : List VariableRow) (datasetDesc : List DatasetRow) :
    List Document :=
  mesaData.map variableDocument ++ datasetDesc.map datasetDocument

/-- The term list extracted by _generate_search_query: all medical-term
matches followed by all number-with-unit matches, on the lowercased
question. -/
def extractedTerms (question : String) : List (List Char) :=
  let lower := question.data.map Char.toLower
  findallKeywordsAux (lower.length + 1) none lower ++
    findallNumericAux (lower.length + 1) none lower

/-- The parsed model payload used against C3: the model claims the (empty)
history is related. -/
def relatedClaimPayload : AnalysisPayload :=
  { context_analysis :=
      some { is_related := some true,
             context_summary := some "Earlier turns discussed hemoglobin",
             related_qa_indices := some [] },
    question_classification := some { question_type := some "general" } }

/-! ### Claim theorems -/

theorem memAppend_eq_lastN (maxLen : Nat) (mem : List MemEntry) (e : MemEntry)
    (h : mem.length ≤ maxLen) :
    memAppend maxLen mem e = lastN maxLen (mem ++ [e]) := by
  unfold memAppend lastN
  rcases Nat.lt_or_ge mem.length maxLen with hlt | hge
  · rw [if_neg, Nat.sub_eq_zero_of_le, List.drop_zero]
    · simpa using hlt
    · simp; omega
  · have hEq : mem.length = maxLen := le_antisymm h hge
    rw [if_pos, show (mem ++ [e]).length - maxLen = 1 by simp [hEq]]
    simp [hEq]

theorem memAppend_length_le (maxLen : Nat) (mem : List MemEntry) (e : MemEntry)
    (h : mem.length ≤ maxLen) :
    (memAppend maxLen mem e).length ≤ maxLen := by
  rw [memAppend_eq_lastN maxLen mem e h]
  unfold lastN
  simp
  omega

theorem lastN_append_left (n : Nat) (l es : List MemEntry) :
    lastN n (lastN n l ++ es) = lastN n (l ++ es) := by
  unfold lastN
  rw [List.drop_append_eq_append_drop, List.drop_append_eq_append_drop,
    List.drop_drop]
  congr 1
  · congr 1
    simp only [List.length_append, List.length_drop]
    omega
  · congr 1
    simp only [List.length_append, List.length_drop]
    omega

theorem memAppend_foldl (maxLen : Nat) (es : List MemEntry) (mem : List MemEntry)
    (h : mem.length ≤ maxLen) :
    es.foldl (memAppend maxLen) mem = lastN maxLen (mem ++ es) := by
  induction es generalizing mem with
  | nil =>
    have h0 : mem.length - maxLen = 0 := by omega
    simp [lastN, h0]
  | cons e es ih =>
    rw [List.foldl_cons, ih (memAppend maxLen mem e) (memAppend_length_le maxLen mem e h),
      memAppend_eq_lastN maxLen mem e h, lastN_append_left]
    simp

theorem rhe_intCast (n : ℤ) : rhe (n : ℚ) = n := by
  simp only [rhe, Int.floor_intCast, sub_self]
  norm_num

theorem round2_one : round2 1 = 1 := by
  have h : ((1 : ℚ) * 100) = ((100 : ℤ) : ℚ) := by norm_num
  rw [round2, h, rhe_intCast]
  norm_num

/-- C2: the validation-stage confidence computation agrees with the spec
formula everywhere: it returns 0 when the answer or the sources list is
empty, otherwise the 2-decimal rounding of
0.6 * min(len(answer)/500, 1) + 0.4 * min(len(sources)/5, 1); with exactly
five sources and an answer of length at least 500 it is exactly 1. -/
theorem calculateConfidence_matches_spec (answer : String) (sources : List Source) :
    calculateConfidence answer sources = confidenceSpec answer sources ∧
    ((answer = "" ∨ sources = []) → calculateConfidence answer sources = 0) ∧
    (sources.length = 5 → 500 ≤ answer.length → calculateConfidence answer sources = 1) := by
  refine ⟨?_, ?_, ?_⟩
  · unfold calculateConfidence confidenceSpec
    split
    · rfl
    · ring_nf
  · intro h
    unfold calculateConfidence
    rw [if_pos h]
  · intro h5 h500
    have hne : ¬(answer = "" ∨ sources = []) := by
      rintro (h | h)
      · rw [h] at h500
        simp [String.length] at h500
      · rw [h] at h5
        simp at h5
    unfold calculateConfidence
    rw [if_neg hne]
    have h1 : min ((answer.length : ℚ) / 500) 1 = 1 := by
      refine min_eq_right ?_
      rw [le_div_iff (by norm_num)]
      have : (500 : ℚ) ≤ (answer.length : ℚ) := by exact_mod_cast h500
      linarith
    have h2 : min ((sources.length : ℚ) / 5) 1 = 1 := by
      rw [h5]
      norm_num
    rw [h1, h2]
    show round2 ((1 : ℚ) * 0.6 + 1 * 0.4) = 1
    rw [show (1 : ℚ) * 0.6 + 1 * 0.4 = 1 by norm_num, round2_one]

/-- C2 witness: five sources and a 500-character answer give confidence 1. -/
theorem calculateConfidence_matches_spec_witness :
    calculateConfidence (String.mk (List.replicate 500 'a'))
      [{ type := "variable", dataset_name := "d", variable_name := "v", study := "s" },
       { type := "variable", dataset_name := "d", variable_name := "v", study := "s" },
       { type := "variable", dataset_name := "d", variable_name := "v", study := "s" },
       { type := "dataset", dataset_name := "d", variable_name := "N/A", study := "s" },
       { type := "dataset", dataset_name := "d", variable_name := "N/A", study := "s" }] = 1 :=
  (calculateConfidence_matches_spec _ _).2.2 (by rfl)
    (by rw [show (String.mk (List.replicate 500 'a')).length =
          (List.replicate 500 'a').length from rfl, List.length_replicate])

/-- C5: conversation memory respects its capacity: the bound
len(memory) ≤ N is preserved by every save, and a sequence of N+1 appends
into an empty memory leaves exactly the N most recent entries - the oldest
is evicted first (FIFO) and the final length is N. The configured capacity
in the source is 10. -/
theorem conversationMemory_bounded (maxLen : Nat) :
    maxHistoryLength = 10 ∧
    (∀ (question timestamp : String) (result : PState) (mem : List MemEntry),
      mem.length ≤ maxLen →
      (saveToMemory maxLen question timestamp result mem).length ≤ maxLen) ∧
    (∀ es : List MemEntry, es.length = maxLen + 1 →
      es.foldl (memAppend maxLen) [] = es.drop 1 ∧
      (es.foldl (memAppend maxLen) []).length = maxLen) := by
  refine ⟨rfl, ?_, ?_⟩
  · intro question timestamp result mem h
    exact memAppend_length_le maxLen mem _ h
  · intro es h
    have hfold : es.foldl (memAppend maxLen) [] = lastN maxLen es := by
      have := memAppend_foldl maxLen es [] (by simp)
      simpa using this
    have hdrop : lastN maxLen es = es.drop 1 := by
      unfold lastN
      rw [h]
      simp
    refine ⟨by rw [hfold, hdrop], ?_⟩
    rw [hfold, hdrop]
    simp [h]

/-- C5 witness: with capacity 2, three appends evict the first entry. -/
theorem conversationMemory_bounded_witness :
    [{ question := "q1", answer := "a1", detailed_answer := "d1", timestamp := "t1",
       confidence := 0, question_type := "general" },
     { question := "q2", answer := "a2", detailed_answer := "d2", timestamp := "t2",
       confidence := 0, question_type := "general" },
     { question := "q3", answer := "a3", detailed_answer := "d3", timestamp := "t3",
       confidence := 0, question_type := "general" }].foldl (memAppend 2) [] =
    [{ question := "q2", answer := "a2", detailed_answer := "d2", timestamp := "t2",
       confidence := 0, question_type := "general" },
     { question := "q3", answer := "a3", detailed_answer := "d3", timestamp := "t3",
       confidence := 0, question_type := "general" }] := by
  have h := (conversationMemory_bounded 2).2.2
    [{ question := "q1", answer := "a1", detailed_answer := "d1", timestamp := "t1",
       confidence := 0, question_type := "general" },
     { question := "q2", answer := "a2", detailed_answer := "d2", timestamp := "t2",
       confidence := 0, question_type := "general" },
     { question := "q3", answer := "a3", detailed_answer := "d3", timestamp := "t3",
       confidence := 0, question_type := "general" }] (by decide)
  exact h.1

/-- C7: after the classification stage question_type is always one of
variable, dataset, general, and a parsed classification value outside that
set resolves to general. -/
theorem questionType_enum (st : PState) (llm : LLMCall1) :
    (((analyzeContextAndClassify st llm).1).question_type = some "variable" ∨
     ((analyzeContextAndClassify st llm).1).question_type = some "dataset" ∨
     ((analyzeContextAndClassify st llm).1).question_type = some "general") ∧
    (∀ (p : AnalysisPayload) (s : String),
      llm = .ok p →
      p.question_classification = some { question_type := some s } →
      s ≠ "variable" → s ≠ "dataset" → s ≠ "general" →
      ((analyzeContextAndClassify st llm).1).question_type = some "general") := by
  constructor
  · cases llm with
    | llmFailure msg => right; right; rfl
    | jsonFailure => right; right; rfl
    | ok p =>
      simp only [analyzeContextAndClassify]
      by_cases h : (p.question_classification.getD {}).question_type.getD "general" = "variable" ∨
          (p.question_classification.getD {}).question_type.getD "general" = "dataset" ∨
          (p.question_classification.getD {}).question_type.getD "general" = "general"
      · rcases h with h | h | h <;> simp [h]
      · simp [h]
  · intro p s hllm hqc h1 h2 h3
    subst hllm
    simp [analyzeContextAndClassify, hqc, h1, h2, h3]

/-- C7 witness: a classification value outside the enum resolves to
general. -/
theorem questionType_enum_witness :
    ((analyzeContextAndClassify {}
      (.ok { context_analysis := none,
             question_classification := some { question_type := some "banana" } })).1).question_type =
      some "general" :=
  (questionType_enum {} _).2 _ "banana" rfl rfl (by decide) (by decide) (by decide)

theorem generateSearchQuery_eq (question questionType : String) :
    generateSearchQuery question questionType =
      (if extractedTerms question = [] then question
       else String.intercalate " " ((extractedTerms question).map String.mk)) := rfl

/-- C9: the derived search query is the original question verbatim exactly
when term extraction yields nothing, and otherwise the space-join of the
extracted terms. -/
theorem generateSearchQuery_spec (question questionType : String) :
    (extractedTerms question = [] → generateSearchQuery question questionType = question) ∧
    (extractedTerms question ≠ [] →
      generateSearchQuery question questionType =
        String.intercalate " " ((extractedTerms question).map String.mk)) := by
  constructor
  · intro h
    rw [generateSearchQuery_eq, if_pos h]
  · intro h
    rw [generateSearchQuery_eq, if_neg h]

/-- C9 witness: a question with no extractable term is used verbatim. -/
theorem generateSearchQuery_spec_witness :
    generateSearchQuery "Tell me about it" "general" = "Tell me about it" :=
  (generateSearchQuery_spec "Tell me about it" "general").1 (by rfl)

/-- C10: source extraction is a length- and order-preserving map: the i-th
source is built from the i-th document's metadata with defaults unknown and
N/A for missing keys; in particular every source extracted from a
dataset-level document has variable_name = N/A. -/
theorem extractSources_spec :
    (∀ docs : List Document, (extractSources docs).length = docs.length) ∧
    (∀ (docs : List Document) (i : Nat) (doc : Document),
      docs.get? i = some doc →
      (extractSources docs).get? i = some
        { type := dictGet doc.metadata "type" "unknown"
          dataset_name := dictGet doc.metadata "dataset_name" "N/A"
          variable_name := dictGet doc.metadata "variable_name" "N/A"
          study := dictGet doc.metadata "study" "N/A" }) ∧
    (∀ (rows : List DatasetRow) (s : Source),
      s ∈ extractSources (rows.map datasetDocument) → s.variable_name = "N/A") := by
  refine ⟨?_, ?_, ?_⟩
  · intro docs
    simp [extractSources]
  · intro docs i doc h
    unfold extractSources
    rw [List.get?_map, h]
    rfl
  · intro rows s hs
    simp only [extractSources, List.map_map, List.mem_map] at hs
    obtain ⟨r, _, hr⟩ := hs
    rw [← hr]
    simp [datasetDocument, dictGet, List.find?]

/-- C10 witness: a concrete dataset document yields a source with
variable_name = N/A in the expected position. -/
theorem extractSources_spec_witness :
    (extractSources [datasetDocument
      { dataset_accession := "pht000998", dataset_name := "Form 2",
        dataset_description := "Eligibility screening", study := "WHI",
        database := "dbGaP", url := none }]).get? 0 = some
      { type := "dataset", dataset_name := "Form 2", variable_name := "N/A",
        study := "WHI" } := by
  have h := extractSources_spec.2.1
    [datasetDocument
      { dataset_accession := "pht000998", dataset_name := "Form 2",
        dataset_description := "Eligibility screening", study := "WHI",
        database := "dbGaP", url := none }] 0
    (datasetDocument
      { dataset_accession := "pht000998", dataset_name := "Form 2",
        dataset_description := "Eligibility screening", study := "WHI",
        database := "dbGaP", url := none }) rfl
  exact h

/-- C3 counterexample: with an empty conversation history the combined
stage still issues its one model call, and a parsed response asserting
relatedness makes is_context_related true - the short-circuit the claim
describes does not exist in the code. -/
theorem analyzeContext_emptyHistory_counterexample :
    (analyzeContextAndClassify (initialState "What is hemoglobin?" [] "english")
        (.ok relatedClaimPayload)).2 = 1 ∧
    ((analyzeContextAndClassify (initialState "What is hemoglobin?" [] "english")
        (.ok relatedClaimPayload)).1).is_context_related = some true :=
  ⟨rfl, rfl⟩

/-- C3 (amended): the context-analysis-and-classification stage issues
exactly one model call even when the conversation history is empty (only
the prompt's context block differs); is_context_related and context_summary
then come from the model's parsed response, and only when the call raises
or its output fails to parse does the keyword fallback produce
is_context_related = false with the no-context summary. -/
theorem analyzeContext_emptyHistory (st : PState) (llm : LLMCall1)
    (h : st.conversation_history = some []) :
    (analyzeContextAndClassify st llm).2 = 1 ∧
    (∀ msg, llm = .llmFailure msg →
      ((analyzeContextAndClassify st llm).1).is_context_related = some false ∧
      ((analyzeContextAndClassify st llm).1).context_summary =
        some "No related historical conversations") ∧
    (llm = .jsonFailure →
      ((analyzeContextAndClassify st llm).1).is_context_related = some false ∧
      ((analyzeContextAndClassify st llm).1).context_summary =
        some "No related historical conversations") := by
  refine ⟨rfl, ?_, ?_⟩
  · rintro msg rfl
    constructor <;> simp [analyzeContextAndClassify, enhancedContextAnalysis, h]
  · rintro rfl
    constructor <;> simp [analyzeContextAndClassify, enhancedContextAnalysis, h]

/-- C3 witness: a parse failure on empty history takes the fallback. -/
theorem analyzeContext_emptyHistory_witness :
    ((analyzeContextAndClassify (initialState "What is hemoglobin?" [] "english")
        .jsonFailure).1).is_context_related = some false ∧
    ((analyzeContextAndClassify (initialState "What is hemoglobin?" [] "english")
        .jsonFailure).1).context_summary = some "No related historical conversations" :=
  (analyzeContext_emptyHistory _ _ rfl).2.2 rfl

/-- C4 counterexample: when workflow.invoke raises, process_question
returns the canned bundle without calling _save_to_memory - the memory is
left unchanged instead of receiving one entry. -/
theorem processQuestion_noSave_counterexample :
    ((processQuestion "What is hemoglobin?" [] "english" (.invokeFailure "boom")
      "2026-01-01T00:00:00" 10 []).2).length = 0 := rfl

/-- C4 (amended): on every call where the workflow invocation returns,
exactly one derived entry is appended to conversation memory (followed by
the FIFO capacity check); when the workflow invocation itself raises, the
except branch returns the canned bundle and appends nothing. -/
theorem processQuestion_memory (question : String) (history : List QA)
    (outputLanguage timestamp : String) (b : PQBehavior) (maxLen : Nat)
    (mem : List MemEntry) :
    (∀ o, b = .run o →
      (processQuestion question history outputLanguage b timestamp maxLen mem).2 =
        memAppend maxLen mem
          (mkMemEntry question timestamp (invokeWorkflow question history outputLanguage o))) ∧
    (∀ msg, b = .invokeFailure msg →
      (processQuestion question history outputLanguage b timestamp maxLen mem).2 = mem) := by
  constructor
  · rintro o rfl
    rfl
  · rintro msg rfl
    rfl

/-- C4 witness: a successful run appends its one entry. -/
theorem processQuestion_memory_witness :
    (processQuestion "q" [] "english"
      (.run { analysisCall := .jsonFailure, searchCall := .ok [],
              generationCall := .ok "An answer." "A summary." })
      "2026-01-03T00:00:00" 10 []).2 =
    memAppend 10 []
      (mkMemEntry "q" "2026-01-03T00:00:00"
        (invokeWorkflow "q" [] "english"
          { analysisCall := .jsonFailure, searchCall := .ok [],
            generationCall := .ok "An answer." "A summary." })) :=
  (processQuestion_memory "q" [] "english" "2026-01-03T00:00:00" _ 10 []).1 _ rfl

/-- C6 counterexample: markdown normalization is not idempotent - the first
pass bolds a line-initial numeric token, and the second pass's bullet rule
rewrites the leading bold marker into a list dash. -/
theorem ensureMarkdownFormat_two_passes :
    ensureMarkdownFormat "5 mg/dL is high" = "**5 mg/dL** is high" ∧
    ensureMarkdownFormat (ensureMarkdownFormat "5 mg/dL is high") =
      "- *5 mg/dL** is high" :=
  ⟨rfl, rfl⟩

/-- C6 (amended): markdown normalization is not idempotent: there is an
answer on which applying the function twice differs from applying it once
(a bolded line-initial numeric-unit token gets rewritten by the bullet
rule on the second pass). -/
theorem ensureMarkdownFormat_not_idempotent :
    ∃ s : String, ensureMarkdownFormat (ensureMarkdownFormat s) ≠ ensureMarkdownFormat s :=
  ⟨"5 mg/dL is high", by decide⟩

theorem calculateConfidence_sources_nil (answer : String) :
    calculateConfidence answer [] = 0 := by
  unfold calculateConfidence
  rw [if_pos (Or.inr rfl)]

theorem rhe_nonneg (q : ℚ) (h : 0 ≤ q) : 0 ≤ rhe q := by
  have hf : 0 ≤ ⌊q⌋ := Int.floor_nonneg.mpr h
  have hdef : rhe q =
      (if q - ⌊q⌋ < 1/2 then ⌊q⌋
       else if (1 : ℚ)/2 < q - ⌊q⌋ then ⌊q⌋ + 1
       else if ⌊q⌋ % 2 = 0 then ⌊q⌋ else ⌊q⌋ + 1) := rfl
  rw [hdef]
  split
  · exact hf
  · split
    · omega
    · split
      · exact hf
      · omega

theorem rhe_le_of_le (q : ℚ) (n : ℤ) (h : q ≤ n) : rhe q ≤ n := by
  have hfle : ⌊q⌋ ≤ n := by
    have h2 := Int.floor_le_floor h
    rwa [Int.floor_intCast] at h2
  have hdef : rhe q =
      (if q - ⌊q⌋ < 1/2 then ⌊q⌋
       else if (1 : ℚ)/2 < q - ⌊q⌋ then ⌊q⌋ + 1
       else if ⌊q⌋ % 2 = 0 then ⌊q⌋ else ⌊q⌋ + 1) := rfl
  rw [hdef]
  split
  · exact hfle
  · rename_i hge
    have hhalf : (1 : ℚ)/2 ≤ q - ⌊q⌋ := le_of_not_lt hge
    have hflq : (⌊q⌋ : ℚ) ≤ (n : ℚ) - 1/2 := by linarith
    have hlt : ⌊q⌋ < n := by
      by_contra hcon
      push_neg at hcon
      have : (n : ℚ) ≤ (⌊q⌋ : ℚ) := by exact_mod_cast hcon
      linarith
    split
    · omega
    · split
      · exact hfle
      · omega

theorem round2_bounds (q : ℚ) (h0 : 0 ≤ q) (h1 : q ≤ 1) :
    0 ≤ round2 q ∧ round2 q ≤ 1 := by
  unfold round2
  have hb0 : 0 ≤ rhe (q * 100) := rhe_nonneg _ (by linarith)
  have hb1 : rhe (q * 100) ≤ 100 := rhe_le_of_le _ 100 (by push_cast; linarith)
  constructor
  · apply div_nonneg _ (by norm_num)
    exact_mod_cast hb0
  · rw [div_le_one (by norm_num)]
    exact_mod_cast hb1

theorem calculateConfidence_bounds (answer : String) (sources : List Source) :
    0 ≤ calculateConfidence answer sources ∧ calculateConfidence answer sources ≤ 1 := by
  by_cases hc : answer = "" ∨ sources = []
  · unfold calculateConfidence
    rw [if_pos hc]
    norm_num
  · unfold calculateConfidence
    rw [if_neg hc]
    show 0 ≤ round2 (min ((answer.length : ℚ) / 500) 1 * 0.6 +
        min ((sources.length : ℚ) / 5) 1 * 0.4) ∧
      round2 (min ((answer.length : ℚ) / 500) 1 * 0.6 +
        min ((sources.length : ℚ) / 5) 1 * 0.4) ≤ 1
    have ha0 : 0 ≤ min ((answer.length : ℚ) / 500) 1 := le_min (by positivity) (by norm_num)
    have ha1 : min ((answer.length : ℚ) / 500) 1 ≤ 1 := min_le_right _ _
    have hb0 : 0 ≤ min ((sources.length : ℚ) / 5) 1 := le_min (by positivity) (by norm_num)
    have hb1 : min ((sources.length : ℚ) / 5) 1 ≤ 1 := min_le_right _ _
    exact round2_bounds _ (by nlinarith) (by nlinarith)

/-- C1 counterexample: when the generation stage raises, its except branch
omits the sources key, so the final bundle lacks the sources field - the
claim that every input yields a bundle with all five fields present fails. -/
theorem processQuestion_missingSources_counterexample :
    ((processQuestion "What is hemoglobin?" [] "english"
      (.run { analysisCall := .jsonFailure, searchCall := .ok [],
              generationCall := .genFailure "timeout" })
      "2026-01-01T00:00:00" 10 []).1).sources = none := rfl

/-- C1 (amended): every process_question call returns a bundle in which
answer, summary_answer, confidence_score and processing_steps are present
and the confidence score lies in [0,1]; the sources field is present except
in exactly one case - the workflow ran and the generation stage took its
exception branch (whose partial update omits the sources key); the canned
bundle of the catastrophic path carries confidence 0. -/
theorem processQuestion_bundle (question : String) (history : List QA)
    (outputLanguage timestamp : String) (b : PQBehavior) (maxLen : Nat)
    (mem : List MemEntry) :
    ∀ bundle, bundle = (processQuestion question history outputLanguage b timestamp maxLen mem).1 →
      (∃ a, bundle.answer = some a) ∧
      (∃ s, bundle.summary_answer = some s) ∧
      (∃ ps, bundle.processing_steps = some ps) ∧
      (∃ c, bundle.confidence_score = some c ∧ 0 ≤ c ∧ c ≤ 1) ∧
      (bundle.sources = none ↔ ∃ o msg, b = .run o ∧ o.generationCall = .genFailure msg) ∧
      (∀ msg, b = .invokeFailure msg → bundle.confidence_score = some 0) := by
  rintro bundle rfl
  rcases b with msg | ⟨a1, s2, g3⟩
  · refine ⟨⟨_, rfl⟩, ⟨_, rfl⟩, ⟨_, rfl⟩, ⟨0, rfl, le_refl 0, by norm_num⟩, ?_,
      fun m hm => rfl⟩
    constructor
    · intro hnone
      exact Option.noConfusion hnone
    · rintro ⟨o, m, hcon, _⟩
      exact PQBehavior.noConfusion hcon
  · rcases s2 with docs | smsg <;> rcases g3 with gmsg | ⟨d, s⟩ | raw <;>
      refine ⟨⟨_, rfl⟩, ⟨_, rfl⟩, ⟨_, rfl⟩,
        ⟨_, rfl, (calculateConfidence_bounds _ _).1, (calculateConfidence_bounds _ _).2⟩,
        ?_, fun m hm => PQBehavior.noConfusion hm⟩
    · exact ⟨fun _ => ⟨_, gmsg, rfl, rfl⟩, fun _ => rfl⟩
    · refine ⟨fun hnone => Option.noConfusion hnone, ?_⟩
      rintro ⟨o, m, hrun, hgen⟩
      injection hrun with ho
      subst ho
      exact GenOutcome.noConfusion hgen
    · refine ⟨fun hnone => Option.noConfusion hnone, ?_⟩
      rintro ⟨o, m, hrun, hgen⟩
      injection hrun with ho
      subst ho
      exact GenOutcome.noConfusion hgen
    · exact ⟨fun _ => ⟨_, gmsg, rfl, rfl⟩, fun _ => rfl⟩
    · refine ⟨fun hnone => Option.noConfusion hnone, ?_⟩
      rintro ⟨o, m, hrun, hgen⟩
      injection hrun with ho
      subst ho
      exact GenOutcome.noConfusion hgen
    · refine ⟨fun hnone => Option.noConfusion hnone, ?_⟩
      rintro ⟨o, m, hrun, hgen⟩
      injection hrun with ho
      subst ho
      exact GenOutcome.noConfusion hgen

/-- C1 witness: a concrete successful run has a confidence score in [0,1]. -/
theorem processQuestion_bundle_witness :
    ∃ c, ((processQuestion "q" [] "english"
      (.run { analysisCall := .jsonFailure, searchCall := .ok [],
              generationCall := .ok "An answer." "A summary." })
      "2026-01-03T00:00:00" 10 []).1).confidence_score = some c ∧ 0 ≤ c ∧ c ≤ 1 :=
  (processQuestion_bundle "q" [] "english" "2026-01-03T00:00:00" _ 10 [] _ rfl).2.2.2.1

/-- C8 counterexample: a run whose retrieval yields zero documents but whose
generation stage raises produces a bundle in which the sources field is
absent rather than the empty list the claim demands (the confidence score is
still 0). -/
theorem emptyRetrieval_counterexample :
    ((processQuestion "blood pressure" [] "english"
      (.run { analysisCall := .jsonFailure, searchCall := .ok [],
              generationCall := .genFailure "service down" })
      "2026-01-02T00:00:00" 10 []).1).sources = none ∧
    ((processQuestion "blood pressure" [] "english"
      (.run { analysisCall := .jsonFailure, searchCall := .ok [],
              generationCall := .genFailure "service down" })
      "2026-01-02T00:00:00" 10 []).1).confidence_score = some 0 :=
  ⟨rfl, congrArg some (calculateConfidence_sources_nil _)⟩

/-- C8 (amended): whenever retrieval produces an empty document list (an
empty search result or a retrieval failure), the final confidence score is
0 regardless of the generated answer; sources is the empty list whenever
the generation stage completes its normal or fallback-parse branch, but the
field is absent when the generation stage raises. -/
theorem emptyRetrieval_confidence (question : String) (history : List QA)
    (outputLanguage timestamp : String) (maxLen : Nat) (mem : List MemEntry)
    (o : RunOutcome)
    (hdocs : o.searchCall = .ok [] ∨ ∃ m, o.searchCall = .searchFailure m) :
    ∀ bundle, bundle = (processQuestion question history outputLanguage (.run o)
        timestamp maxLen mem).1 →
      bundle.confidence_score = some 0 ∧
      (∀ m, o.generationCall = .genFailure m → bundle.sources = none) ∧
      ((∀ m, o.generationCall ≠ .genFailure m) → bundle.sources = some []) := by
  rintro bundle rfl
  rcases o with ⟨a1, s2, g3⟩
  rcases hdocs with hs2 | ⟨m, hs2⟩ <;> cases hs2 <;>
    rcases g3 with gmsg | ⟨d, s⟩ | raw
  · exact ⟨congrArg some (calculateConfidence_sources_nil _),
      fun m hm => rfl, fun hne => absurd rfl (hne gmsg)⟩
  · exact ⟨congrArg some (calculateConfidence_sources_nil _),
      fun m hm => GenOutcome.noConfusion hm, fun _ => rfl⟩
  · exact ⟨congrArg some (calculateConfidence_sources_nil _),
      fun m hm => GenOutcome.noConfusion hm, fun _ => rfl⟩
  · exact ⟨congrArg some (calculateConfidence_sources_nil _),
      fun m hm => rfl, fun hne => absurd rfl (hne gmsg)⟩
  · exact ⟨congrArg some (calculateConfidence_sources_nil _),
      fun m hm => GenOutcome.noConfusion hm, fun _ => rfl⟩
  · exact ⟨congrArg some (calculateConfidence_sources_nil _),
      fun m hm => GenOutcome.noConfusion hm, fun _ => rfl⟩

/-- C8 witness: a concrete empty-retrieval run with a successful generation
stage has confidence 0 and empty sources. -/
theorem emptyRetrieval_confidence_witness :
    ((processQuestion "blood pressure" [] "english"
      (.run { analysisCall := .jsonFailure, searchCall := .ok [],
              generationCall := .ok "A long answer." "Short." })
      "2026-01-02T00:00:00" 10 []).1).confidence_score = some 0 :=
  (emptyRetrieval_confidence "blood pressure" [] "english" "2026-01-02T00:00:00" 10 []
    { analysisCall := .jsonFailure, searchCall := .ok [],
      generationCall := .ok "A long answer." "Short." } (Or.inl rfl) _ rfl).1

end WHI
